import Mathlib

/-!
# Verification of the `rs-matter-embassy` ESP light examples

Shallow embedding of the orchestration layer of the two example binaries
`examples/esp/src/bin/light_eth.rs` and `examples/esp/src/bin/light_thread.rs`:

* the Wi-Fi Connection Supervisor (`connection`, light_eth.rs:174-204),
* the Change Notifier device loop (`device`, light_eth.rs:147-161 and
  light_thread.rs:168-182),
* the boot sequence with static heap-region registration (`init_heap` and
  `main`),
* the cooperative join combinators (`select3` / `select` from
  `embassy-futures`, followed by `.coalesce().await.unwrap()`), which are
  external dependencies of the repository and are modelled from their
  documented first-wins semantics.

Async control flow is embedded as explicit state passing: each loop body
becomes a function from the environment's responses for that iteration to a
result plus the ordered list of observable actions (awaits, radio calls,
attribute mutations, change notifications) the body performs.  `log::info!`
calls are elided throughout, as logging is out of scope.
-/

/-! ## Wi-Fi environment (external `esp-wifi` driver surface)

The `connection` task consumes these driver calls:
`esp_wifi::wifi::wifi_state()`, `controller.is_started()`,
`controller.set_configuration(..)`, `controller.start_async().await`,
`controller.connect_async().await`, and
`controller.wait_for_event(WifiEvent::StaDisconnected).await`.
One `WifiEnv` record fixes the responses the driver gives during one
iteration of the loop. -/

/-- The `esp_wifi::wifi::WifiState` values relevant to the examples
(the loop only compares against `StaConnected`). -/
inductive WifiState where
  | staStarted
  | staConnected
  | staDisconnected
  | staStopped
  | invalid
deriving DecidableEq, Repr

/-- An abstract `esp_wifi::wifi::WifiError` (the examples never inspect the
error value, only whether the call failed). -/
inductive WifiError where
  | notStarted
  | internalError
  | timeout
deriving DecidableEq, Repr

instance {ε α : Type} [DecidableEq ε] [DecidableEq α] : DecidableEq (Except ε α) :=
  fun x y =>
    match x, y with
    | .error a, .error b =>
        if h : a = b then .isTrue (by rw [h]) else .isFalse (by simp [h])
    | .error _, .ok _ => .isFalse (by simp)
    | .ok _, .error _ => .isFalse (by simp)
    | .ok a, .ok b =>
        if h : a = b then .isTrue (by rw [h]) else .isFalse (by simp [h])

/-- The driver's responses during one iteration of the `connection` loop. -/
structure WifiEnv where
  /-- Result of `esp_wifi::wifi::wifi_state()` at the top of the loop body. -/
  wifiState : WifiState
  /-- Result of `controller.is_started()`. -/
  is_started : Except WifiError Bool
  /-- Result of `controller.set_configuration(&client_config)`. -/
  setConfigResult : Except WifiError Unit
  /-- Result of `controller.start_async().await`. -/
  startResult : Except WifiError Unit
  /-- Result of `controller.connect_async().await`. -/
  connectResult : Except WifiError Unit
deriving DecidableEq, Repr

/-- Observable actions of one iteration of the `connection` loop
(light_eth.rs:177-203), in program order.  `log::info!` calls are elided. -/
inductive ConnAction where
  /-- `controller.wait_for_event(WifiEvent::StaDisconnected).await` -/
  | waitForDisconnect
  /-- `Timer::after(Duration::from_millis(ms)).await` -/
  | timerWait (ms : Nat)
  /-- `controller.set_configuration(&client_config)` with the Wi-Fi client
  credentials (`WIFI_SSID` / `WIFI_PASS`). -/
  | setConfiguration
  /-- `controller.start_async().await` -/
  | startRequest
  /-- `controller.connect_async().await` -/
  | connectAttempt
deriving DecidableEq, Repr

/-- Whether a `ConnAction` is a suspension point (`await`) of the loop body.
`set_configuration` is the only synchronous call. -/
def ConnAction.isAwait : ConnAction → Bool
  | .waitForDisconnect => true
  | .timerWait _ => true
  | .setConfiguration => false
  | .startRequest => true
  | .connectAttempt => true

/-- How one iteration of the `connection` loop body ends: `next` loops again;
`panicked` means an `.unwrap()` on an `Err` aborted the task (and with it the
whole process, since the orchestrated future panics). -/
inductive IterResult where
  | next
  | panicked
deriving DecidableEq, Repr

/-- light_eth.rs:178-182 — the `if esp_wifi::wifi::wifi_state() ==
WifiState::StaConnected` block: wait until no longer connected, then settle
for 5000 ms. -/
def connectedCheck (env : WifiEnv) : List ConnAction :=
  if env.wifiState = WifiState.staConnected then
    [ConnAction.waitForDisconnect, ConnAction.timerWait 5000]
  else
    []

/-- light_eth.rs:196-202 — `match controller.connect_async().await`:
on `Ok` just log, on `Err` back off for 5000 ms.  Either way the loop
continues (`IterResult.next`).  `acc` is the action trace accumulated by the
earlier part of the iteration. -/
def connectBlock (env : WifiEnv) (acc : List ConnAction) :
    IterResult × List ConnAction :=
  match env.connectResult with
  | .ok _ => (IterResult.next, acc ++ [ConnAction.connectAttempt])
  | .error _ =>
      (IterResult.next, acc ++ [ConnAction.connectAttempt, ConnAction.timerWait 5000])

/-- light_eth.rs:183-202 — the `if !matches!(controller.is_started(), Ok(true))`
block followed by the connect attempt.  When the radio is already started the
start block is skipped entirely; otherwise the credentials are applied and a
start is requested, with `.unwrap()` panics on `set_configuration` or
`start_async` errors. -/
def startAndConnect (env : WifiEnv) : IterResult × List ConnAction :=
  if env.is_started = Except.ok true then
    connectBlock env []
  else
    match env.setConfigResult with
    | .error _ => (IterResult.panicked, [ConnAction.setConfiguration])
    | .ok _ =>
        match env.startResult with
        | .error _ =>
            (IterResult.panicked,
              [ConnAction.setConfiguration, ConnAction.startRequest])
        | .ok _ =>
            connectBlock env
              [ConnAction.setConfiguration, ConnAction.startRequest]

/-- One full iteration of the `connection` loop body (light_eth.rs:177-203). -/
def connectionIter (env : WifiEnv) : IterResult × List ConnAction :=
  let pre := connectedCheck env
  let sc := startAndConnect env
  (sc.1, pre ++ sc.2)

/-- The tail of every completed iteration of the `connection` loop: the
connect attempt, followed by the 5000 ms backoff exactly when the attempt
failed (light_eth.rs:196-202). -/
def connectTail (env : WifiEnv) : List ConnAction :=
  match env.connectResult with
  | .ok _ => [ConnAction.connectAttempt]
  | .error _ => [ConnAction.connectAttempt, ConnAction.timerWait 5000]

/-- `precededOnlyBy target allowed prev acts = true` iff every occurrence of
`target` in `acts` is immediately preceded by an element of `allowed`
(`prev` being the element just before `acts`, if any). -/
def precededOnlyBy (target : ConnAction) (allowed : List ConnAction) :
    Option ConnAction → List ConnAction → Bool
  | _, [] => true
  | prev, a :: rest =>
    (if a = target then
        match prev with
        | some p => decide (p ∈ allowed)
        | none => false
      else true) &&
      precededOnlyBy target allowed (some a) rest

/-- Outcome of running the `connection` loop against a finite prefix of driver
responses: either it is still in the loop after consuming them all, or an
`.unwrap()` panicked somewhere along the way.  The loop has no `return`,
`break`, or `Ok`-exit, so `stillRunning` is the only non-panic outcome. -/
inductive RunOutcome where
  | stillRunning
  | panicked
deriving DecidableEq, Repr

/-- Run the `connection` loop over a finite list of per-iteration driver
responses, concatenating the action traces. -/
def connectionRun : List WifiEnv → RunOutcome × List ConnAction
  | [] => (RunOutcome.stillRunning, [])
  | e :: es =>
    let step := connectionIter e
    match step.1 with
    | IterResult.panicked => (RunOutcome.panicked, step.2)
    | IterResult.next =>
        let rest := connectionRun es
        (rest.1, step.2 ++ rest.2)

/-- A driver response record in which neither `.unwrap()` of the loop body can
fire: the radio either reports already started, or configuration and start
both succeed.  Connect failures and disconnect notifications are arbitrary.
These are exactly the environments made of connect failures/successes and
disconnect notifications. -/
def benign (env : WifiEnv) : Prop :=
  env.is_started = Except.ok true ∨
    (env.setConfigResult = Except.ok () ∧ env.startResult = Except.ok ())

instance (env : WifiEnv) : Decidable (benign env) := by
  unfold benign; infer_instance

/-! ## Change Notifier (the `device` loop)

light_eth.rs:147-161 and light_thread.rs:168-182 — identical in both
binaries.  The shared attribute store is the on/off `Bool` held by the
`OnOffHandler` (`on_off.on_off()` / `on_off.set_on_off(..)`); the loop is the
only writer. -/

/-- `LIGHT_ENDPOINT_ID` (light_eth.rs:208): endpoint 0 is the root endpoint,
the light sits on endpoint 1. -/
def LIGHT_ENDPOINT_ID : Nat := 1

/-- `TestOnOffDeviceLogic::CLUSTER.id` — the Matter On/Off cluster id, 0x0006.
The constant lives in the external `rs-matter` crate; its concrete value is
irrelevant to the claims, only that every notification carries it. -/
def onOffClusterId : Nat := 6

/-- Observable actions of one iteration of the `device` loop, in program
order.  The `info!("Light toggled")` log is elided. -/
inductive DeviceAction where
  /-- `Timer::after(Duration::from_secs(5)).await` (5000 ms) -/
  | timerAwait (ms : Nat)
  /-- `on_off.set_on_off(v)` — mutate the shared attribute store. -/
  | setOnOff (v : Bool)
  /-- `stack.notify_cluster_changed(endpoint, cluster)` — emit the change
  event naming the endpoint/cluster coordinate. -/
  | notifyClusterChanged (endpoint : Nat) (cluster : Nat)
deriving DecidableEq, Repr

/-- Whether a `DeviceAction` is a suspension point of the loop body: only the
timer is awaited; attribute mutation and change notification are synchronous. -/
def DeviceAction.isAwait : DeviceAction → Bool
  | .timerAwait _ => true
  | .setOnOff _ => false
  | .notifyClusterChanged _ _ => false

/-- Whether a `DeviceAction` is a change-event emission. -/
def DeviceAction.isNotify : DeviceAction → Bool
  | .notifyClusterChanged _ _ => true
  | _ => false

/-- Whether a `DeviceAction` is an attribute-store mutation. -/
def DeviceAction.isSet : DeviceAction → Bool
  | .setOnOff _ => true
  | _ => false

/-- One iteration of the `device` loop body (light_eth.rs:148-160): sleep 5 s,
then `on_off.set_on_off(!on_off.on_off())`, then
`stack.notify_cluster_changed(1, TestOnOffDeviceLogic::CLUSTER.id)`.
Input: the attribute value at the top of the iteration; output: the value
after the iteration plus the ordered action trace. -/
def deviceIter (onOff : Bool) : Bool × List DeviceAction :=
  let v := !onOff
  (v,
    [DeviceAction.timerAwait 5000,
     DeviceAction.setOnOff v,
     DeviceAction.notifyClusterChanged 1 onOffClusterId])

/-! ## Boot sequence and static heap-region registration

`init_heap` (light_eth.rs:223-260, light_thread.rs:212-262) registers the
`link_section`-reserved static banks with `esp_alloc::HEAP` via
`add_region`; which banks exist depends on the chip feature flags.  `main`
calls `init_heap` during boot, long before `select3`/`select` starts the
orchestrated tasks. -/

/-- The orchestrated tasks of §4.4: the Matter run-loop (`stack.run(..)`),
the Change Notifier (`device`), and — in the Ethernet binary only — the
Connection Supervisor (`connection(controller)`). -/
inductive TaskId where
  | matterRun
  | deviceLoop
  | connectionSup
deriving DecidableEq, Repr

/-- Events of the boot phase of `main`, in program order. -/
inductive BootEvent where
  /-- `esp_alloc::HEAP.add_region(HeapRegion::new(ptr, N, Internal))` —
  register one static memory region of `sizeBytes` bytes with the
  process-wide allocator. -/
  | registerRegion (sizeBytes : Nat)
  /-- `esp-hal` / `esp-wifi` / embassy initialization boilerplate and stack
  allocation (no allocator registration, no task start). -/
  | hwInit
  /-- The orchestrator (`select3`/`select`) begins polling task `t`. -/
  | taskStart (t : TaskId)
deriving DecidableEq, Repr

/-- Chip-feature variants distinguished by the `#[cfg]` blocks of
`init_heap` in light_eth.rs. -/
inductive EthChip where
  | esp32
  | esp32c3
  | esp32h2
  | otherChip
deriving DecidableEq, Repr

/-- `init_heap` of light_eth.rs:224-260: on `esp32`, two disjoint banks
(70 KB internal plus 96 KB in `.dram2_uninit`); otherwise a single bank
whose size depends on the chip (160 KB for esp32c3/esp32h2, 186 KB else). -/
def init_heap_eth : EthChip → List BootEvent
  | .esp32 =>
      [BootEvent.registerRegion (70 * 1024), BootEvent.registerRegion (96 * 1024)]
  | .esp32c3 => [BootEvent.registerRegion (160 * 1024)]
  | .esp32h2 => [BootEvent.registerRegion (160 * 1024)]
  | .otherChip => [BootEvent.registerRegion (186 * 1024)]

/-- The region sizes `init_heap` must register per chip variant
(light_eth.rs). -/
def heapRegions_eth : EthChip → List Nat
  | .esp32 => [70 * 1024, 96 * 1024]
  | .esp32c3 => [160 * 1024]
  | .esp32h2 => [160 * 1024]
  | .otherChip => [186 * 1024]

/-- The boot-phase event trace of `main` in light_eth.rs:54-171:
`esp_hal::init` (line 62), `init_heap()` (line 67), timer/rng/wifi/embassy
initialization (lines 69-87), stack allocation and handler wiring (lines
89-140), then `select3(&mut matter, &mut device, connection(..))` (line 164)
starts the three tasks. -/
def main_eth (c : EthChip) : List BootEvent :=
  [BootEvent.hwInit] ++ init_heap_eth c ++
    [BootEvent.hwInit, BootEvent.hwInit,
     BootEvent.taskStart TaskId.matterRun,
     BootEvent.taskStart TaskId.deviceLoop,
     BootEvent.taskStart TaskId.connectionSup]

/-- Chip-feature variants distinguished by the `#[cfg]` blocks of
`init_heap` in light_thread.rs (which, unlike light_eth.rs, has a dedicated
esp32h2 block with a 40 KB + 96 KB split). -/
inductive ThreadChip where
  | esp32
  | esp32c3
  | esp32h2
  | otherChip
deriving DecidableEq, Repr

/-- `init_heap` of light_thread.rs:213-262. -/
def init_heap_thread : ThreadChip → List BootEvent
  | .esp32 =>
      [BootEvent.registerRegion (70 * 1024), BootEvent.registerRegion (96 * 1024)]
  | .esp32h2 =>
      [BootEvent.registerRegion (40 * 1024), BootEvent.registerRegion (96 * 1024)]
  | .esp32c3 => [BootEvent.registerRegion (160 * 1024)]
  | .otherChip => [BootEvent.registerRegion (186 * 1024)]

/-- The region sizes `init_heap` must register per chip variant
(light_thread.rs). -/
def heapRegions_thread : ThreadChip → List Nat
  | .esp32 => [70 * 1024, 96 * 1024]
  | .esp32h2 => [40 * 1024, 96 * 1024]
  | .esp32c3 => [160 * 1024]
  | .otherChip => [186 * 1024]

/-- The boot-phase event trace of `main` in light_thread.rs:55-186:
`init_heap()` (line 63) runs even before `esp_hal::init` (line 68); then
the boilerplate and stack allocation, then `select(&mut matter, &mut device)`
(line 185) starts the two tasks (no Connection Supervisor — the Thread radio
link is managed inside the stack). -/
def main_thread (c : ThreadChip) : List BootEvent :=
  init_heap_thread c ++
    [BootEvent.hwInit, BootEvent.hwInit, BootEvent.hwInit,
     BootEvent.taskStart TaskId.matterRun,
     BootEvent.taskStart TaskId.deviceLoop]

/-- Whether a boot event registers a memory region. -/
def BootEvent.isRegister : BootEvent → Bool
  | .registerRegion _ => true
  | _ => false

/-- Whether a boot event starts an orchestrated task. -/
def BootEvent.isTaskStart : BootEvent → Bool
  | .taskStart _ => true
  | _ => false

/-- The sizes of the regions a boot trace registers, in order. -/
def registeredSizes : List BootEvent → List Nat
  | [] => []
  | BootEvent.registerRegion n :: es => n :: registeredSizes es
  | _ :: es => registeredSizes es

/-- Every region registration in the trace happens strictly before every
task start (indices compared in the trace). -/
def regsBeforeTasks (tr : List BootEvent) : Prop :=
  ∀ i j : Fin tr.length,
    (tr.get i).isRegister = true → (tr.get j).isTaskStart = true → i.val < j.val

instance (tr : List BootEvent) : Decidable (regsBeforeTasks tr) := by
  unfold regsBeforeTasks; infer_instance

/-! ## Task Orchestrator: `select3` / `select` + `.coalesce().await.unwrap()`

Modelled from the spec: the join combinators come from the external
`embassy-futures` crate (not part of this repository's sources); §4.4 of the
spec fixes their semantics — run the tasks on one cooperative scheduler and
"wait for the first of the set to produce any outcome (success or failure)
and treat that as the process's terminal outcome; all other tasks are
abandoned at that point without further execution".  A task is embedded as a
function from the scheduler step to a poll outcome: still `pending` (having
performed a list of observable effects during that poll) or `ready` with its
final result.  The scheduler polls the selected tasks in argument order at
each step and stops at the first `ready`, never polling anything afterwards. -/

/-- One poll of a task: still pending (with the effects it performed while
polled) or finished with a result. -/
inductive TaskPoll (ε α : Type) where
  | pending (evs : List ε)
  | ready (a : α)

/-- A cooperative task: what its poll at scheduler step `t` produces. -/
def SimTask (ε α : Type) : Type := Nat → TaskPoll ε α

/-- `embassy_futures::select::Either3` — which of the three tasks finished
first, with its result. -/
inductive Either3 (α β γ : Type) where
  | first (a : α)
  | second (b : β)
  | third (c : γ)

/-- `embassy_futures::select::Either` — which of the two tasks finished
first, with its result. -/
inductive Either2 (α β : Type) where
  | first (a : α)
  | second (b : β)

/-- Modelled from the spec: `select3(a, b, c)` run for `fuel` scheduler steps
starting at step `t`.  At each step the three tasks are polled in order; the
first `ready` terminates the join with `(step, winner)` and no further task
is polled; tasks polled earlier in the same step contribute their effects.
Returns the terminal outcome (`none` while still running) and the
concatenated effect trace. -/
def select3Run {ε α β γ : Type} (a : SimTask ε α) (b : SimTask ε β)
    (c : SimTask ε γ) : Nat → Nat → Option (Nat × Either3 α β γ) × List ε
  | 0, _ => (none, [])
  | fuel + 1, t =>
    match a t with
    | .ready x => (some (t, Either3.first x), [])
    | .pending ea =>
      match b t with
      | .ready y => (some (t, Either3.second y), ea)
      | .pending eb =>
        match c t with
        | .ready z => (some (t, Either3.third z), ea ++ eb)
        | .pending ec =>
          let rest := select3Run a b c fuel (t + 1)
          (rest.1, ea ++ eb ++ ec ++ rest.2)

/-- Modelled from the spec: `select(a, b)` (light_thread.rs:185), the two-task
analogue of `select3Run`. -/
def select2Run {ε α β : Type} (a : SimTask ε α) (b : SimTask ε β) :
    Nat → Nat → Option (Nat × Either2 α β) × List ε
  | 0, _ => (none, [])
  | fuel + 1, t =>
    match a t with
    | .ready x => (some (t, Either2.first x), [])
    | .pending ea =>
      match b t with
      | .ready y => (some (t, Either2.second y), ea)
      | .pending eb =>
        let rest := select2Run a b fuel (t + 1)
        (rest.1, ea ++ eb ++ rest.2)

/-- `Coalesce::coalesce` on a three-way select of `Result<(), E>` futures
(rs-matter `utils::select::Coalesce`): the joined result is exactly the
result of whichever task finished. -/
def coalesce3 {E : Type} (o : Either3 (Except E Unit) (Except E Unit) (Except E Unit)) :
    Except E Unit :=
  match o with
  | .first r => r
  | .second r => r
  | .third r => r

/-- `Coalesce::coalesce` on a two-way select of `Result<(), E>` futures. -/
def coalesce2 {E : Type} (o : Either2 (Except E Unit) (Except E Unit)) :
    Except E Unit :=
  match o with
  | .first r => r
  | .second r => r

/-- The process's terminal outcome after `.unwrap()`: clean exit on `Ok`,
panic carrying the error on `Err`. -/
inductive ProcOutcome (E : Type) where
  | exited
  | panicked (e : E)

/-- light_eth.rs:164-171 — `select3(&mut matter, &mut device,
connection(controller).into_fallible()).coalesce().await.unwrap()`:
the process outcome after `fuel` scheduler steps (`none` while all three
tasks are still running). -/
def mainJoin_eth {ε E : Type} (a b c : SimTask ε (Except E Unit)) (fuel : Nat) :
    Option (ProcOutcome E) :=
  match (select3Run a b c fuel 0).1 with
  | none => none
  | some (_, w) =>
    match coalesce3 w with
    | .ok _ => some ProcOutcome.exited
    | .error e => some (ProcOutcome.panicked e)

/-- light_thread.rs:185 — `select(&mut matter, &mut device).coalesce().await
.unwrap()`: the process outcome after `fuel` scheduler steps. -/
def mainJoin_thread {ε E : Type} (a b : SimTask ε (Except E Unit)) (fuel : Nat) :
    Option (ProcOutcome E) :=
  match (select2Run a b fuel 0).1 with
  | none => none
  | some (_, w) =>
    match coalesce2 w with
    | .ok _ => some ProcOutcome.exited
    | .error e => some (ProcOutcome.panicked e)

/-- The effect trace of `n` full scheduler rounds of three pending tasks,
starting at step `t`: each round appends the three tasks' per-poll effects in
polling order. -/
def roundsFrom {ε : Type} (ea eb ec : Nat → List ε) (t : Nat) : Nat → List ε
  | 0 => []
  | n + 1 => ea t ++ eb t ++ ec t ++ roundsFrom ea eb ec (t + 1) n

/-- The effect trace of `n` full scheduler rounds of two pending tasks,
starting at step `t`. -/
def rounds2From {ε : Type} (ea eb : Nat → List ε) (t : Nat) : Nat → List ε
  | 0 => []
  | n + 1 => ea t ++ eb t ++ rounds2From ea eb (t + 1) n

/-- `.unwrap()` of the coalesced result as a process outcome. -/
def procOf {E : Type} : Except E Unit → ProcOutcome E
  | .ok _ => ProcOutcome.exited
  | .error e => ProcOutcome.panicked e

/-! ## Concrete instances used to exercise the theorems -/

/-- A task that runs forever, performing effect `0` at every poll. -/
def wPendA : SimTask Nat (Except Unit Unit) := fun _ => TaskPoll.pending [0]

/-- A task that fails at scheduler step 2 and performs effect `1` at every
earlier poll. -/
def wFailB : SimTask Nat (Except Unit Unit) := fun t =>
  if t = 2 then TaskPoll.ready (Except.error ()) else TaskPoll.pending [1]

/-- A task that runs forever, performing effect `2` at every poll. -/
def wPendC : SimTask Nat (Except Unit Unit) := fun _ => TaskPoll.pending [2]

/-- Driver responses for an iteration that finds the link connected and then
reconnects successfully after the disconnect. -/
def envConnected : WifiEnv :=
  { wifiState := WifiState.staConnected
    is_started := Except.ok true
    setConfigResult := Except.ok ()
    startResult := Except.ok ()
    connectResult := Except.ok () }

/-- Driver responses for an iteration whose connect attempt fails while the
radio is already started. -/
def envConnectFail : WifiEnv :=
  { wifiState := WifiState.staStarted
    is_started := Except.ok true
    setConfigResult := Except.ok ()
    startResult := Except.ok ()
    connectResult := Except.error WifiError.timeout }

/-- Driver responses for a fresh boot iteration: radio not started,
configuration, start and connect all succeed. -/
def envFresh : WifiEnv :=
  { wifiState := WifiState.staStopped
    is_started := Except.ok false
    setConfigResult := Except.ok ()
    startResult := Except.ok ()
    connectResult := Except.ok () }

/-- Driver responses for an iteration in which `start_async` fails: the
loop body's `.unwrap()` at light_eth.rs:191 panics. -/
def envStartFail : WifiEnv :=
  { wifiState := WifiState.staDisconnected
    is_started := Except.ok false
    setConfigResult := Except.ok ()
    startResult := Except.error WifiError.internalError
    connectResult := Except.ok () }

/-! ## Helper lemmas: shapes of the Connection Supervisor iterations -/

theorem connectBlock_eq (env : WifiEnv) (acc : List ConnAction) :
    connectBlock env acc = (IterResult.next, acc ++ connectTail env) := by
  unfold connectBlock connectTail
  cases env.connectResult <;> simp

theorem connectionIter_benign (env : WifiEnv) (h : benign env) :
    connectionIter env =
      (IterResult.next,
        connectedCheck env ++
          (if env.is_started = Except.ok true then []
           else [ConnAction.setConfiguration, ConnAction.startRequest]) ++
          connectTail env) := by
  unfold connectionIter startAndConnect
  by_cases hs : env.is_started = Except.ok true
  · rw [if_pos hs, if_pos hs, connectBlock_eq]
    simp
  · rcases h with h | ⟨h1, h2⟩
    · exact absurd h hs
    · rw [if_neg hs, if_neg hs]
      simp only [h1, h2, connectBlock_eq]
      simp

theorem connectionIter_cfgPanic (env : WifiEnv) (er : WifiError)
    (hs : ¬env.is_started = Except.ok true)
    (h1 : env.setConfigResult = Except.error er) :
    connectionIter env =
      (IterResult.panicked, connectedCheck env ++ [ConnAction.setConfiguration]) := by
  unfold connectionIter startAndConnect
  rw [if_neg hs]
  simp only [h1]

theorem connectionIter_startPanic (env : WifiEnv) (er : WifiError)
    (hs : ¬env.is_started = Except.ok true)
    (h1 : env.setConfigResult = Except.ok ())
    (h2 : env.startResult = Except.error er) :
    connectionIter env =
      (IterResult.panicked,
        connectedCheck env ++ [ConnAction.setConfiguration, ConnAction.startRequest]) := by
  unfold connectionIter startAndConnect
  rw [if_neg hs]
  simp only [h1, h2]

theorem connectionRun_benign (envs : List WifiEnv) (h : ∀ e ∈ envs, benign e) :
    (connectionRun envs).1 = RunOutcome.stillRunning := by
  induction envs with
  | nil => rfl
  | cons e es ih =>
    have hb : benign e := h e (by simp)
    unfold connectionRun
    rw [connectionIter_benign e hb]
    exact ih fun e' he' => h e' (by simp [he'])

/-! ## Helper lemmas: the select combinators skip pending rounds -/

theorem select3Run_skip {ε α β γ : Type} (a : SimTask ε α) (b : SimTask ε β)
    (c : SimTask ε γ) (ea eb ec : Nat → List ε) (T : Nat)
    (ha : ∀ t, t < T → a t = TaskPoll.pending (ea t))
    (hb : ∀ t, t < T → b t = TaskPoll.pending (eb t))
    (hc : ∀ t, t < T → c t = TaskPoll.pending (ec t)) :
    ∀ fuel t0, t0 ≤ T → T < t0 + fuel →
      select3Run a b c fuel t0 =
        ((select3Run a b c (fuel - (T - t0)) T).1,
          roundsFrom ea eb ec t0 (T - t0) ++ (select3Run a b c (fuel - (T - t0)) T).2) := by
  intro fuel
  induction fuel with
  | zero => intro t0 h1 h2; omega
  | succ n ih =>
    intro t0 h1 h2
    by_cases he : t0 = T
    · subst he
      simp [roundsFrom]
    · have hlt : t0 < T := lt_of_le_of_ne h1 he
      have hT : T - t0 = (T - (t0 + 1)) + 1 := by omega
      have hfuel : n + 1 - (T - t0) = n - (T - (t0 + 1)) := by omega
      rw [select3Run, ha t0 hlt, hb t0 hlt, hc t0 hlt,
        ih (t0 + 1) (by omega) (by omega), hfuel, hT]
      simp [roundsFrom]

theorem select2Run_skip {ε α β : Type} (a : SimTask ε α) (b : SimTask ε β)
    (ea eb : Nat → List ε) (T : Nat)
    (ha : ∀ t, t < T → a t = TaskPoll.pending (ea t))
    (hb : ∀ t, t < T → b t = TaskPoll.pending (eb t)) :
    ∀ fuel t0, t0 ≤ T → T < t0 + fuel →
      select2Run a b fuel t0 =
        ((select2Run a b (fuel - (T - t0)) T).1,
          rounds2From ea eb t0 (T - t0) ++ (select2Run a b (fuel - (T - t0)) T).2) := by
  intro fuel
  induction fuel with
  | zero => intro t0 h1 h2; omega
  | succ n ih =>
    intro t0 h1 h2
    by_cases he : t0 = T
    · subst he
      simp [rounds2From]
    · have hlt : t0 < T := lt_of_le_of_ne h1 he
      have hT : T - t0 = (T - (t0 + 1)) + 1 := by omega
      have hfuel : n + 1 - (T - t0) = n - (T - (t0 + 1)) := by omega
      rw [select2Run, ha t0 hlt, hb t0 hlt,
        ih (t0 + 1) (by omega) (by omega), hfuel, hT]
      simp [rounds2From]

theorem select3Run_win_first {ε α β γ : Type} (a : SimTask ε α) (b : SimTask ε β)
    (c : SimTask ε γ) (ea eb ec : Nat → List ε) (T : Nat) (x : α)
    (ha : ∀ t, t < T → a t = TaskPoll.pending (ea t))
    (hb : ∀ t, t < T → b t = TaskPoll.pending (eb t))
    (hc : ∀ t, t < T → c t = TaskPoll.pending (ec t))
    (haT : a T = TaskPoll.ready x) :
    ∀ fuel, T < fuel →
      select3Run a b c fuel 0 = (some (T, Either3.first x), roundsFrom ea eb ec 0 T) := by
  intro fuel hf
  obtain ⟨m, hm⟩ : ∃ m, fuel - T = m + 1 := ⟨fuel - T - 1, by omega⟩
  rw [select3Run_skip a b c ea eb ec T ha hb hc fuel 0 (Nat.zero_le _) (by omega)]
  simp only [Nat.sub_zero, hm]
  rw [select3Run, haT]
  simp

theorem select3Run_win_second {ε α β γ : Type} (a : SimTask ε α) (b : SimTask ε β)
    (c : SimTask ε γ) (ea eb ec : Nat → List ε) (T : Nat) (y : β)
    (ha : ∀ t, t < T → a t = TaskPoll.pending (ea t))
    (hb : ∀ t, t < T → b t = TaskPoll.pending (eb t))
    (hc : ∀ t, t < T → c t = TaskPoll.pending (ec t))
    (haT : a T = TaskPoll.pending (ea T)) (hbT : b T = TaskPoll.ready y) :
    ∀ fuel, T < fuel →
      select3Run a b c fuel 0 =
        (some (T, Either3.second y), roundsFrom ea eb ec 0 T ++ ea T) := by
  intro fuel hf
  obtain ⟨m, hm⟩ : ∃ m, fuel - T = m + 1 := ⟨fuel - T - 1, by omega⟩
  rw [select3Run_skip a b c ea eb ec T ha hb hc fuel 0 (Nat.zero_le _) (by omega)]
  simp only [Nat.sub_zero, hm]
  rw [select3Run, haT, hbT]

theorem select3Run_win_third {ε α β γ : Type} (a : SimTask ε α) (b : SimTask ε β)
    (c : SimTask ε γ) (ea eb ec : Nat → List ε) (T : Nat) (z : γ)
    (ha : ∀ t, t < T → a t = TaskPoll.pending (ea t))
    (hb : ∀ t, t < T → b t = TaskPoll.pending (eb t))
    (hc : ∀ t, t < T → c t = TaskPoll.pending (ec t))
    (haT : a T = TaskPoll.pending (ea T)) (hbT : b T = TaskPoll.pending (eb T))
    (hcT : c T = TaskPoll.ready z) :
    ∀ fuel, T < fuel →
      select3Run a b c fuel 0 =
        (some (T, Either3.third z), roundsFrom ea eb ec 0 T ++ ea T ++ eb T) := by
  intro fuel hf
  obtain ⟨m, hm⟩ : ∃ m, fuel - T = m + 1 := ⟨fuel - T - 1, by omega⟩
  rw [select3Run_skip a b c ea eb ec T ha hb hc fuel 0 (Nat.zero_le _) (by omega)]
  simp only [Nat.sub_zero, hm]
  rw [select3Run, haT, hbT, hcT]
  simp

theorem select2Run_win_first {ε α β : Type} (a : SimTask ε α) (b : SimTask ε β)
    (ea eb : Nat → List ε) (T : Nat) (x : α)
    (ha : ∀ t, t < T → a t = TaskPoll.pending (ea t))
    (hb : ∀ t, t < T → b t = TaskPoll.pending (eb t))
    (haT : a T = TaskPoll.ready x) :
    ∀ fuel, T < fuel →
      select2Run a b fuel 0 = (some (T, Either2.first x), rounds2From ea eb 0 T) := by
  intro fuel hf
  obtain ⟨m, hm⟩ : ∃ m, fuel - T = m + 1 := ⟨fuel - T - 1, by omega⟩
  rw [select2Run_skip a b ea eb T ha hb fuel 0 (Nat.zero_le _) (by omega)]
  simp only [Nat.sub_zero, hm]
  rw [select2Run, haT]
  simp

theorem select2Run_win_second {ε α β : Type} (a : SimTask ε α) (b : SimTask ε β)
    (ea eb : Nat → List ε) (T : Nat) (y : β)
    (ha : ∀ t, t < T → a t = TaskPoll.pending (ea t))
    (hb : ∀ t, t < T → b t = TaskPoll.pending (eb t))
    (haT : a T = TaskPoll.pending (ea T)) (hbT : b T = TaskPoll.ready y) :
    ∀ fuel, T < fuel →
      select2Run a b fuel 0 =
        (some (T, Either2.second y), rounds2From ea eb 0 T ++ ea T) := by
  intro fuel hf
  obtain ⟨m, hm⟩ : ∃ m, fuel - T = m + 1 := ⟨fuel - T - 1, by omega⟩
  rw [select2Run_skip a b ea eb T ha hb fuel 0 (Nat.zero_le _) (by omega)]
  simp only [Nat.sub_zero, hm]
  rw [select2Run, haT, hbT]

/-! ## Claim theorems -/

/-- C5: in every iteration of the Change Notifier loop the shared on/off
attribute is mutated strictly before the change event is emitted, exactly one
change event is emitted per iteration, and the event names endpoint 1 and the
On/Off cluster id. -/
theorem device_mutates_before_notify :
    ∀ b : Bool,
      ((deviceIter b).2.countP (fun a => a.isNotify) = 1) ∧
      (DeviceAction.notifyClusterChanged 1 onOffClusterId ∈ (deviceIter b).2) ∧
      (∀ i j : Fin (deviceIter b).2.length,
        ((deviceIter b).2.get i).isSet = true →
        ((deviceIter b).2.get j).isNotify = true → i.val < j.val) := by
  intro b
  cases b <;> exact ⟨by decide, by decide, by decide⟩

/-- Witness for C5: on the concrete iteration starting from `false`, the
mutation (index 1) precedes the notification (index 2), and the notification
names endpoint 1 and the On/Off cluster. -/
theorem device_mutates_before_notify_witness :
    (1 : Nat) < 2 ∧
    DeviceAction.notifyClusterChanged 1 onOffClusterId ∈ (deviceIter false).2 :=
  ⟨(device_mutates_before_notify false).2.2 ⟨1, by decide⟩ ⟨2, by decide⟩
      (by decide) (by decide),
    (device_mutates_before_notify false).2.1⟩

/-- C6: each Change Notifier iteration leaves the attribute equal to the
negation of its value before the iteration, and two consecutive iterations
return it to the original value. -/
theorem device_flip_roundtrip :
    ∀ b : Bool,
      (deviceIter b).1 = !b ∧ (deviceIter ((deviceIter b).1)).1 = b := by
  decide

/-- C8: in both binaries and on every chip variant, every static memory
region (both disjoint banks on esp32, the single bank otherwise) is
registered with the process-wide allocator during boot, strictly before the
orchestrator starts any task, and the registered-region set equals the
variant's full region list (so it is complete and fixed once tasks run). -/
theorem heap_regions_before_tasks :
    (∀ c : EthChip,
      regsBeforeTasks (main_eth c) ∧
      registeredSizes (main_eth c) = heapRegions_eth c ∧
      (main_eth c).countP (fun e => e.isTaskStart) = 3) ∧
    (∀ c : ThreadChip,
      regsBeforeTasks (main_thread c) ∧
      registeredSizes (main_thread c) = heapRegions_thread c ∧
      (main_thread c).countP (fun e => e.isTaskStart) = 2) := by
  constructor
  · intro c; cases c <;> exact ⟨by decide, by decide, by decide⟩
  · intro c; cases c <;> exact ⟨by decide, by decide, by decide⟩

/-- Witness for C8: in the esp32 Ethernet boot trace, the first bank
registration (index 1) precedes the first task start (index 5). -/
theorem heap_regions_before_tasks_witness : (1 : Nat) < 5 :=
  (heap_regions_before_tasks.1 EthChip.esp32).1 ⟨1, by decide⟩ ⟨5, by decide⟩
    (by decide) (by decide)

/-- C2: for every sequence of connect failures and disconnect notifications
(driver responses in which configuration and start never fail), the
Connection Supervisor never reaches a terminal state: every iteration
completes with `next` and re-attempts connect, a failed connect is followed
by the fixed 5000 ms backoff, a disconnect notification is followed by the
fixed 5000 ms settle wait, and running any number of such iterations leaves
the loop still running. -/
theorem supervisor_never_terminal :
    (∀ envs : List WifiEnv, (∀ e ∈ envs, benign e) →
      (connectionRun envs).1 = RunOutcome.stillRunning) ∧
    (∀ env : WifiEnv, benign env →
      (connectionIter env).1 = IterResult.next ∧
      ConnAction.connectAttempt ∈ (connectionIter env).2 ∧
      (∀ er, env.connectResult = Except.error er →
        ∃ pre, (connectionIter env).2 =
          pre ++ [ConnAction.connectAttempt, ConnAction.timerWait 5000]) ∧
      (env.wifiState = WifiState.staConnected →
        (connectionIter env).2.take 2 =
          [ConnAction.waitForDisconnect, ConnAction.timerWait 5000])) := by
  refine ⟨connectionRun_benign, ?_⟩
  intro env hb
  rw [connectionIter_benign env hb]
  refine ⟨rfl, ?_, ?_, ?_⟩
  · rcases hcn : env.connectResult with er | u <;>
      simp [connectTail, hcn]
  · intro er hcn
    refine ⟨connectedCheck env ++
      (if env.is_started = Except.ok true then []
       else [ConnAction.setConfiguration, ConnAction.startRequest]), ?_⟩
    simp [connectTail, hcn]
  · intro hw
    have hpre : connectedCheck env =
        [ConnAction.waitForDisconnect, ConnAction.timerWait 5000] := by
      simp [connectedCheck, hw]
    rw [hpre]
    rfl

/-- Witness for C2: a connect-failure iteration followed by a clean
reconnect leaves the supervisor still running, and the failing iteration
itself completes and re-attempts connect. -/
theorem supervisor_never_terminal_witness :
    (connectionRun [envConnectFail, envFresh]).1 = RunOutcome.stillRunning ∧
    ConnAction.connectAttempt ∈ (connectionIter envConnectFail).2 :=
  ⟨supervisor_never_terminal.1 [envConnectFail, envFresh] (by decide),
    (supervisor_never_terminal.2 envConnectFail (by decide)).2.1⟩

/-- C3: whenever `is_started()` reports `Ok(true)`, the supervisor treats the
radio as already started: the iteration performs no configuration and no
start request, proceeds directly to the connect attempt, and completes
normally. -/
theorem idempotent_start :
    ∀ env : WifiEnv, env.is_started = Except.ok true →
      (connectionIter env).1 = IterResult.next ∧
      ConnAction.startRequest ∉ (connectionIter env).2 ∧
      ConnAction.setConfiguration ∉ (connectionIter env).2 ∧
      ConnAction.connectAttempt ∈ (connectionIter env).2 := by
  intro env hs
  rw [connectionIter_benign env (Or.inl hs), if_pos hs]
  refine ⟨rfl, ?_, ?_, ?_⟩ <;>
    by_cases hw : env.wifiState = WifiState.staConnected <;>
      rcases hcn : env.connectResult with er | u <;>
        simp [connectedCheck, connectTail, hw, hcn]

/-- Witness for C3: with the radio already started and a failing connect
attempt, the iteration completes and never issues a start request. -/
theorem idempotent_start_witness :
    (connectionIter envConnectFail).1 = IterResult.next ∧
    ConnAction.startRequest ∉ (connectionIter envConnectFail).2 :=
  ⟨(idempotent_start envConnectFail rfl).1,
    (idempotent_start envConnectFail rfl).2.1⟩

/-- C7: whenever the supervisor observes the link as connected, the first
action of the iteration is the suspension on the disconnect notification
(not a timer), the fixed 5000 ms settle wait follows it immediately, and the
iteration then re-attempts start/connect (it reaches the connect attempt
whenever the iteration does not panic). -/
theorem connected_waits_for_disconnect :
    ∀ env : WifiEnv, env.wifiState = WifiState.staConnected →
      ((connectionIter env).2.take 2 =
        [ConnAction.waitForDisconnect, ConnAction.timerWait 5000]) ∧
      ((connectionIter env).2.head? = some ConnAction.waitForDisconnect) ∧
      (benign env → ConnAction.connectAttempt ∈ (connectionIter env).2) := by
  intro env hw
  have hpre : connectedCheck env =
      [ConnAction.waitForDisconnect, ConnAction.timerWait 5000] := by
    simp [connectedCheck, hw]
  refine ⟨?_, ?_, ?_⟩
  · show ((connectedCheck env ++ (startAndConnect env).2).take 2) = _
    rw [hpre]; rfl
  · show (connectedCheck env ++ (startAndConnect env).2).head? = _
    rw [hpre]; rfl
  · intro hb
    rw [connectionIter_benign env hb]
    rcases hcn : env.connectResult with er | u <;>
      simp [connectTail, hcn]

/-- Witness for C7: in a connected iteration the loop suspends first on the
disconnect notification. -/
theorem connected_waits_for_disconnect_witness :
    (connectionIter envConnected).2.head? = some ConnAction.waitForDisconnect :=
  (connected_waits_for_disconnect envConnected rfl).2.1

/-- C4 counterexample: a failure of the start request is not absorbed.  With
the radio not started, configuration accepted, and `start_async` returning
`Err`, the `.unwrap()` at light_eth.rs:191 panics: the iteration ends in
`panicked` (which the orchestrator's join turns into the process's terminal
outcome) instead of retrying. -/
theorem start_failure_panics :
    connectionIter envStartFail =
      (IterResult.panicked,
        [ConnAction.setConfiguration, ConnAction.startRequest]) := by
  decide

/-- C4 as amended: every link **connect** failure is absorbed and retried
indefinitely with the fixed 5000 ms backoff and never surfaces upward — the
iteration completes, ends in the backoff wait, re-attempted connects follow,
and any benign run stays `stillRunning`.  (Start-request and configuration
failures, by contrast, panic via `.unwrap()`.) -/
theorem connect_failures_absorbed :
    (∀ envs : List WifiEnv, (∀ e ∈ envs, benign e) →
      (connectionRun envs).1 = RunOutcome.stillRunning) ∧
    (∀ env : WifiEnv, ∀ er : WifiError, benign env →
      env.connectResult = Except.error er →
      (connectionIter env).1 = IterResult.next ∧
      (connectionIter env).2.getLast? = some (ConnAction.timerWait 5000) ∧
      ConnAction.connectAttempt ∈ (connectionIter env).2) := by
  refine ⟨connectionRun_benign, ?_⟩
  intro env er hb hcn
  rw [connectionIter_benign env hb]
  refine ⟨rfl, ?_, ?_⟩
  · simp only [connectTail, hcn]
    rw [show [ConnAction.connectAttempt, ConnAction.timerWait 5000] =
      [ConnAction.connectAttempt] ++ [ConnAction.timerWait 5000] from rfl,
      ← List.append_assoc]
    exact List.getLast?_concat _
  · simp [connectTail, hcn]

/-- Witness for C4 (amended): a concrete connect failure completes its
iteration and the one-iteration run is still in the loop. -/
theorem connect_failures_absorbed_witness :
    (connectionRun [envConnectFail]).1 = RunOutcome.stillRunning ∧
    (connectionIter envConnectFail).1 = IterResult.next :=
  ⟨connect_failures_absorbed.1 [envConnectFail] (by decide),
    (connect_failures_absorbed.2 envConnectFail WifiError.timeout (by decide)
        rfl).1⟩

/-- C9: every completed iteration of the Connection Supervisor loop and every
iteration of the Change Notifier loop contains at least one suspension point
(an await on a timer, a radio operation, or a radio event), so no iteration
completes without yielding to sibling tasks. -/
theorem every_iteration_suspends :
    (∀ env : WifiEnv, (connectionIter env).1 = IterResult.next →
      ((connectionIter env).2.any ConnAction.isAwait) = true) ∧
    (∀ b : Bool, ((deviceIter b).2.any DeviceAction.isAwait) = true) := by
  constructor
  · intro env h
    have hb : benign env := by
      by_cases hs : env.is_started = Except.ok true
      · exact Or.inl hs
      · rcases h1 : env.setConfigResult with er1 | u1
        · rw [connectionIter_cfgPanic env er1 hs h1] at h
          simp at h
        · cases u1
          rcases h2 : env.startResult with er2 | u2
          · rw [connectionIter_startPanic env er2 hs h1 h2] at h
            simp at h
          · cases u2
            exact Or.inr ⟨h1, h2⟩
    rw [connectionIter_benign env hb]
    rcases hcn : env.connectResult with er | u <;>
      simp [connectTail, hcn, ConnAction.isAwait]
  · decide

/-- Witness for C9: the fresh-boot iteration completes and contains an
await, and so does every device iteration. -/
theorem every_iteration_suspends_witness :
    ((connectionIter envFresh).2.any ConnAction.isAwait) = true ∧
    ((deviceIter false).2.any DeviceAction.isAwait) = true :=
  ⟨every_iteration_suspends.1 envFresh (by decide),
    every_iteration_suspends.2 false⟩

/-- C10: the fixed 5000 ms delay runs only right after the disconnect
notification or right after a failed connect attempt; a successful connect
imposes no delay (the iteration's last action is the connect attempt) and a
connected iteration suspends first on the disconnect event; the Wi-Fi client
configuration is applied exactly when the radio is not already started, and
always immediately before the start request. -/
theorem backoff_only_after_failure_or_disconnect :
    ∀ env : WifiEnv,
      (precededOnlyBy (ConnAction.timerWait 5000)
        [ConnAction.waitForDisconnect, ConnAction.connectAttempt]
        none (connectionIter env).2 = true) ∧
      (precededOnlyBy ConnAction.startRequest [ConnAction.setConfiguration]
        none (connectionIter env).2 = true) ∧
      (benign env → env.connectResult = Except.ok () →
        (connectionIter env).2.getLast? = some ConnAction.connectAttempt) ∧
      (ConnAction.setConfiguration ∈ (connectionIter env).2 ↔
        ¬env.is_started = Except.ok true) ∧
      (env.wifiState = WifiState.staConnected →
        (connectionIter env).2.head? = some ConnAction.waitForDisconnect) := by
  intro env
  by_cases hw : env.wifiState = WifiState.staConnected <;>
  by_cases hs : env.is_started = Except.ok true <;>
  rcases h1 : env.setConfigResult with er1 | ⟨⟩ <;>
  rcases h2 : env.startResult with er2 | ⟨⟩ <;>
  rcases hcn : env.connectResult with er3 | ⟨⟩ <;>
  simp [connectionIter, startAndConnect, connectBlock, connectedCheck,
    connectTail, precededOnlyBy, benign, hw, hs, h1, h2, hcn]

/-- Witness for C10: a successful reconnect after a disconnect ends the
iteration with the connect attempt — no trailing backoff. -/
theorem backoff_only_after_failure_or_disconnect_witness :
    (connectionIter envConnected).2.getLast? = some ConnAction.connectAttempt :=
  (backoff_only_after_failure_or_disconnect envConnected).2.2.1 (by decide) rfl

/-- C1: the orchestrator's join is first-wins.  For any run of the
orchestrated tasks (Matter run-loop `a`, device loop `b` and, in the
Ethernet variant, the connection task `c`) in which no task has finished
before step `T`, whichever task is ready at step `T` (ties broken in polling
order) determines the join's terminal outcome, the process outcome after
`.coalesce().await.unwrap()` is exactly that task's result, and the effect
trace stops at step `T` — no sibling code executes afterwards (at step `T`
itself only tasks polled before the winner contribute). -/
theorem orchestrator_first_wins {ε E : Type}
    (a b c : SimTask ε (Except E Unit)) (ea eb ec : Nat → List ε) (T : Nat)
    (ha : ∀ t, t < T → a t = TaskPoll.pending (ea t))
    (hb : ∀ t, t < T → b t = TaskPoll.pending (eb t))
    (hc : ∀ t, t < T → c t = TaskPoll.pending (ec t)) :
    (∀ x, a T = TaskPoll.ready x → ∀ fuel, T < fuel →
      select3Run a b c fuel 0 =
        (some (T, Either3.first x), roundsFrom ea eb ec 0 T) ∧
      mainJoin_eth a b c fuel = some (procOf x) ∧
      select2Run a b fuel 0 =
        (some (T, Either2.first x), rounds2From ea eb 0 T) ∧
      mainJoin_thread a b fuel = some (procOf x)) ∧
    (∀ y, a T = TaskPoll.pending (ea T) → b T = TaskPoll.ready y →
      ∀ fuel, T < fuel →
      select3Run a b c fuel 0 =
        (some (T, Either3.second y), roundsFrom ea eb ec 0 T ++ ea T) ∧
      mainJoin_eth a b c fuel = some (procOf y) ∧
      select2Run a b fuel 0 =
        (some (T, Either2.second y), rounds2From ea eb 0 T ++ ea T) ∧
      mainJoin_thread a b fuel = some (procOf y)) ∧
    (∀ z, a T = TaskPoll.pending (ea T) → b T = TaskPoll.pending (eb T) →
      c T = TaskPoll.ready z → ∀ fuel, T < fuel →
      select3Run a b c fuel 0 =
        (some (T, Either3.third z), roundsFrom ea eb ec 0 T ++ ea T ++ eb T) ∧
      mainJoin_eth a b c fuel = some (procOf z)) := by
  refine ⟨?_, ?_, ?_⟩
  · intro x hx fuel hf
    have h3 := select3Run_win_first a b c ea eb ec T x ha hb hc hx fuel hf
    have h2 := select2Run_win_first a b ea eb T x ha hb hx fuel hf
    refine ⟨h3, ?_, h2, ?_⟩
    · simp only [mainJoin_eth, h3, coalesce3]
      cases x <;> rfl
    · simp only [mainJoin_thread, h2, coalesce2]
      cases x <;> rfl
  · intro y hxT hy fuel hf
    have h3 := select3Run_win_second a b c ea eb ec T y ha hb hc hxT hy fuel hf
    have h2 := select2Run_win_second a b ea eb T y ha hb hxT hy fuel hf
    refine ⟨h3, ?_, h2, ?_⟩
    · simp only [mainJoin_eth, h3, coalesce3]
      cases y <;> rfl
    · simp only [mainJoin_thread, h2, coalesce2]
      cases y <;> rfl
  · intro z hxT hyT hz fuel hf
    have h3 := select3Run_win_third a b c ea eb ec T z ha hb hc hxT hyT hz fuel hf
    refine ⟨h3, ?_⟩
    simp only [mainJoin_eth, h3, coalesce3]
    cases z <;> rfl

/-- Witness for C1: with the Matter task and the connection task pending
forever and the device task failing at step 2, the join terminates at step 2
with exactly the device task's failure, the trace contains nothing beyond
step 2, and the process panics with that failure. -/
theorem orchestrator_first_wins_witness :
    select3Run wPendA wFailB wPendC 4 0 =
      (some (2, Either3.second (Except.error ())), [0, 1, 2, 0, 1, 2, 0]) ∧
    mainJoin_eth wPendA wFailB wPendC 4 = some (ProcOutcome.panicked ()) := by
  have h := (orchestrator_first_wins wPendA wFailB wPendC
      (fun _ => [0]) (fun _ => [1]) (fun _ => [2]) 2
      (fun t ht => rfl)
      (fun t ht => by simp only [wFailB]; rw [if_neg (by omega)])
      (fun t ht => rfl)).2.1
      (Except.error ()) rfl rfl 4 (by omega)
  exact ⟨by rw [h.1]; rfl, h.2.1⟩
